import Mathlib

/-!
Shallow embedding of the MQTT consumer input plugin
(`plugins/inputs/mqtt_consumer/mqtt_consumer.go`) and of the cmp
`findVersion` helper, together with theorems checking the specification's
claims about them.

Modelling conventions:
* A Go buffered channel of capacity `c` is a FIFO list together with the
  capacity; a plain send (`ch <- x`) appends at the tail when
  `length < c` and otherwise blocks the sender, which we represent by the
  operation returning `none`.
* A `select` with a `default` branch is a non-blocking attempt.
* `close` of an already closed channel panics in Go; we represent the
  panic as an explicit outcome.
* `log.Printf` calls are collected as `LogEntry` values.
* The broker client (paho MQTT) is a black box: the outcomes of
  `Connect` and `SubscribeMultiple` are inputs to `Start` (`Broker`).
* `telegraf.ParseMetrics` is external to the plugin; the parser loop is
  parametrised by a decode function `ParseFn`.  Metrics themselves are
  opaque, modelled as `Nat`.
-/

namespace MqttConsumer

abbrev Payload := String

abbrev Metric := Nat

/-- Log lines emitted by the plugin via `log.Printf`. -/
inductive LogEntry where
  /-- "Could not parse MQTT message: %s, error: %s" -/
  | parseError (msg : Payload) (e : String)
  /-- "MQTT Consumer buffer is full, dropping a metric. ..." -/
  | bufferFull
  deriving DecidableEq, Repr

/-- The `MQTTConsumer` struct.  `inQ`/`inCap` model the channel `m.in`,
`metricQ`/`metricCap` model `m.metricC`, `doneClosed` models whether
`m.done` has been closed, `workerRunning` models whether `go m.parser()`
has been launched, and `clientSet`/`connectAttempted`/`connected` model
the `m.client` handle and the `Connect` call on it. -/
structure MQTTConsumer where
  Servers : List String
  Topics : List String
  Username : String
  Password : String
  MetricBuffer : Nat
  clientSet : Bool := false
  connectAttempted : Bool := false
  connected : Bool := false
  inCap : Nat := 0
  inQ : List Payload := []
  doneAlloc : Bool := false
  doneClosed : Bool := false
  metricCap : Nat := 0
  metricQ : List Metric := []
  workerRunning : Bool := false
  deriving DecidableEq, Repr

/-- The subset of `mqtt.ClientOptions` the plugin sets.  An option that
was never set is `none`. -/
structure ClientOptions where
  clientID : Option String := none
  tlsInsecureSkipVerify : Option Bool := none
  username : Option String := none
  password : Option String := none
  brokers : List String := []
  autoReconnect : Option Bool := none
  keepAliveSeconds : Option Nat := none
  deriving DecidableEq, Repr

/-- `createOpts`: builds the transport options.  In the source `ca` is the
constant `""`, so the TLS branch is skipped, `scheme` stays `"tcp"` and
`InsecureSkipVerify` is forced `true`.  The username option is set only
when `m.Username == ""`; the password option is set only when
`m.Password != ""`.  With no servers it returns the (non-nil) options
together with the error "could not get host infomations"; otherwise each
host is added as `"tcp://" ++ host`.  Mirrors the Go `(opts, err)`
return as a pair with an `Option String` error. -/
def createOpts (m : MQTTConsumer) : ClientOptions × Option String :=
  let opts : ClientOptions := {}
  let opts := { opts with clientID := some "Telegraf-MQTT-Consumer" }
  let scheme := "tcp"
  let opts := { opts with tlsInsecureSkipVerify := some true }
  let user := m.Username
  let opts := if user = "" then { opts with username := some user } else opts
  let password := m.Password
  let opts := if password ≠ "" then { opts with password := some password } else opts
  if m.Servers.length = 0 then
    (opts, some "could not get host infomations")
  else
    let opts :=
      { opts with brokers := m.Servers.map (fun host => scheme ++ "://" ++ host) }
    let opts := { opts with autoReconnect := some true }
    let opts := { opts with keepAliveSeconds := some 0 }
    (opts, none)

/-- Outcomes of the black-box broker client calls made inside `Start`:
`token.Error()` of `Connect` and of `SubscribeMultiple`. -/
structure Broker where
  connectErr : Option String := none
  subscribeErr : Option String := none
  deriving DecidableEq, Repr

/-- `Start`: builds options (returning the error on failure), creates the
client and connects (returning `token.Error()` on failure), allocates
`m.in` with capacity `m.MetricBuffer` **before** applying the
`MetricBuffer == 0 → 100000` default, allocates `m.done` and `m.metricC`
(the latter with the defaulted capacity), subscribes (returning the error
on failure), and finally launches the parser goroutine. -/
def Start (m : MQTTConsumer) (brk : Broker) : MQTTConsumer × Option String :=
  match (createOpts m).2 with
  | some e => (m, some e)
  | none =>
    let m := { m with clientSet := true, connectAttempted := true }
    match brk.connectErr with
    | some e => (m, some e)
    | none =>
      let m := { m with connected := true }
      let m := { m with inCap := m.MetricBuffer, inQ := [],
                        doneAlloc := true, doneClosed := false }
      let m := if m.MetricBuffer = 0 then { m with MetricBuffer := 100000 } else m
      let m := { m with metricCap := m.MetricBuffer, metricQ := [] }
      match brk.subscribeErr with
      | some e => (m, some e)
      | none => ({ m with workerRunning := true }, none)

/-- `recvMessage`: the delivery callback, whose whole body is the plain
channel send `m.in <- msg.Payload()`.  When the Ingress Queue has free
capacity the payload is appended at the tail and the callback returns
(`some`); when the queue is full the send blocks the delivery thread
(`none`).  Nothing is dropped and nothing is logged. -/
def recvMessage (m : MQTTConsumer) (msg : Payload) : Option MQTTConsumer :=
  if m.inQ.length < m.inCap then some { m with inQ := m.inQ ++ [msg] } else none

/-- Result of `Stop`: either the updated state or a Go runtime panic. -/
inductive StopResult where
  | ok (m : MQTTConsumer)
  | panicked (reason : String)
  deriving DecidableEq, Repr

/-- `Stop`: under the lock, `close(m.done)` then
`m.client.Disconnect(200)`.  Closing `m.done` makes the parser goroutine
exit and disconnects the session; but `close` of an already closed Go
channel panics, so a second `Stop` panics. -/
def Stop (m : MQTTConsumer) : StopResult :=
  if m.doneClosed then .panicked "close of closed channel"
  else .ok { m with doneClosed := true, workerRunning := false, connected := false }

/-- The receive loop of `Gather`: `for i := 0; i < nmetrics; i++` doing
`metric := <-m.metricC`.  Receives `fuel` items from the head of the
queue; the `[]` case with positive fuel would be a blocking receive and
is unreachable when `fuel ≤ length`. -/
def gatherLoop : Nat → List Metric → List Metric × List Metric
  | 0, q => ([], q)
  | _ + 1, [] => ([], [])
  | n + 1, x :: rest =>
      let r := gatherLoop n rest
      (x :: r.1, r.2)

/-- `Gather`: under the lock, snapshots `nmetrics := len(m.metricC)` and
receives exactly that many metrics, forwarding each to
`acc.AddFields` in order.  `arrivals` are metrics the parser goroutine
(which does not take the lock) may append to the channel while the loop
runs.  Returns the updated state and the forwarded records; the Go
function always returns `nil` error. -/
def Gather (m : MQTTConsumer) (arrivals : List Metric) : MQTTConsumer × List Metric :=
  let nmetrics := m.metricQ.length
  let r := gatherLoop nmetrics (m.metricQ ++ arrivals)
  ({ m with metricQ := r.2 }, r.1)

/-- The external decoder `telegraf.ParseMetrics`: a payload decodes to a
list of metrics or fails with an error. -/
abbrev ParseFn := Payload → Except String (List Metric)

/-- The egress enqueue inside the parser loop:
`select m.metricC <- metric / default: log.Printf(buffer full)`.
Non-blocking: on a full Egress Queue the metric is dropped, the queue is
unchanged and a warning is logged. -/
def enqueueMetric (s : MQTTConsumer × List LogEntry) (met : Metric) :
    MQTTConsumer × List LogEntry :=
  if s.1.metricQ.length < s.1.metricCap then
    ({ s.1 with metricQ := s.1.metricQ ++ [met] }, s.2)
  else
    (s.1, s.2 ++ [LogEntry.bufferFull])

/-- The parser body for one received message: decode it; on failure log
the raw payload with the error and continue (the metric slice is empty);
on success enqueue each decoded metric non-blockingly. -/
def parseMsg (parse : ParseFn) (m : MQTTConsumer) (msg : Payload) :
    MQTTConsumer × List LogEntry :=
  match parse msg with
  | .error e => (m, [LogEntry.parseError msg e])
  | .ok metrics => metrics.foldl enqueueMetric (m, [])

/-- The parser goroutine processing a list of pending ingress messages in
order (no shutdown signal raised meanwhile). -/
def parserDrain (parse : ParseFn) (msgs : List Payload) (m : MQTTConsumer)
    (logs : List LogEntry) : MQTTConsumer × List LogEntry :=
  match msgs with
  | [] => (m, logs)
  | msg :: rest =>
      let r := parseMsg parse m msg
      parserDrain parse rest r.1 (logs ++ r.2)

/-- Run the parser until the current Ingress Queue is drained. -/
def parserRun (parse : ParseFn) (m : MQTTConsumer) : MQTTConsumer × List LogEntry :=
  parserDrain parse m.inQ { m with inQ := [] } []

end MqttConsumer

namespace Cmp

/-- Go strings in the cmp version helper, modelled as character lists so
that the byte-level operations of the source (`strings.Split`,
`strings.HasPrefix`, `strings.TrimPrefix`) have direct structural
counterparts. -/
abbrev Str := List Char

/-- `versionUnknown` from the cmp package. -/
def versionUnknown : Str := "unknown".toList

/-- The `"version: "` line marker used by `findVersion`. -/
def versionMarker : Str := "version: ".toList

/-- Go `strings.Split(s, "\n")`: cut the string at every newline; the
result always has at least one (possibly empty) element. -/
def splitLines : Str → List Str
  | [] => [[]]
  | c :: rest =>
      let r := splitLines rest
      if c = '\n' then [] :: r
      else
        match r with
        | [] => [[c]]
        | l :: ls => (c :: l) :: ls

/-- What `findVersion` can observe of `/current_version`:
`os.Open` fails, `ioutil.ReadAll` fails, or the file's content. -/
inductive VersionFile where
  | openError
  | readError
  | content (s : Str)
  deriving DecidableEq, Repr

/-- The line scan of `findVersion`: the first line starting with
`"version: "` yields the remainder after that marker (Go
`strings.TrimPrefix` after `strings.HasPrefix`, then `break`); otherwise
the current value is kept. -/
def scanLines : List Str → Str → Str
  | [], v => v
  | l :: rest, v =>
      if versionMarker.isPrefixOf l then l.drop versionMarker.length
      else scanLines rest v

/-- `findVersion` from the cmp version helper.  The package-level
variable `version` is passed and returned explicitly; the result is
`(returned string, new value of version, whether the file was opened)`.
If `version` is already non-empty it is returned without touching the
file; otherwise `version` is set to `versionUnknown`, the file is read,
and a `"version: "` line (if any) overrides it. -/
def findVersion (version : Str) (fs : VersionFile) : Str × Str × Bool :=
  if version ≠ [] then (version, version, false)
  else
    let v := versionUnknown
    match fs with
    | .openError => (v, v, true)
    | .readError => (v, v, true)
    | .content s =>
        let v := scanLines (splitLines s) v
        (v, v, true)

end Cmp

namespace MqttConsumer

/-! ### Helper lemmas -/

theorem gatherLoop_append (q r : List Metric) :
    gatherLoop q.length (q ++ r) = (q, r) := by
  induction q with
  | nil => simp [gatherLoop]
  | cons x rest ih => simp [gatherLoop, ih]

theorem createOpts_snd (m : MQTTConsumer) :
    (createOpts m).2 =
      if m.Servers.length = 0 then some "could not get host infomations"
      else none := by
  unfold createOpts
  by_cases h : m.Servers.length = 0 <;> simp [h]

/-! ### C1: the delivery-callback enqueue -/

/-- C1 (counterexample): with a full Ingress Queue (capacity 1, one
payload buffered), `recvMessage` does not return to the caller — the
plain channel send blocks — contradicting the claim that the
delivery-callback enqueue returns without blocking with the new payload
dropped and logged. -/
theorem C1_counterexample :
    recvMessage
      { Servers := ["s"], Topics := ["t"], Username := "", Password := "",
        MetricBuffer := 1, inCap := 1, inQ := ["a"] } "b" = none ∧
    ¬ ∃ m', recvMessage
      { Servers := ["s"], Topics := ["t"], Username := "", Password := "",
        MetricBuffer := 1, inCap := 1, inQ := ["a"] } "b" = some m' := by
  refine ⟨rfl, ?_⟩
  rintro ⟨m', hm⟩
  simp [recvMessage] at hm

/-- C1 (amended): `recvMessage` is a plain blocking channel send: when
the Ingress Queue has free capacity it appends the payload at the tail
and returns; when the queue is full it blocks the delivery thread —
nothing is dropped and nothing is logged. -/
theorem C1_recvMessage_blocking_send (m : MQTTConsumer) (p : Payload) :
    (m.inQ.length < m.inCap →
      recvMessage m p = some { m with inQ := m.inQ ++ [p] }) ∧
    (m.inCap ≤ m.inQ.length → recvMessage m p = none) := by
  constructor <;> intro h
  · simp [recvMessage, h]
  · simp [recvMessage, Nat.not_lt.mpr h]

/-- C1 witness: both branches of the amended statement at concrete
states. -/
theorem C1_witness :
    recvMessage
      { Servers := ["s"], Topics := ["t"], Username := "", Password := "",
        MetricBuffer := 2, inCap := 2, inQ := ["a"] } "b" =
      some { Servers := ["s"], Topics := ["t"], Username := "", Password := "",
             MetricBuffer := 2, inCap := 2, inQ := ["a", "b"] } ∧
    recvMessage
      { Servers := ["s"], Topics := ["t"], Username := "", Password := "",
        MetricBuffer := 1, inCap := 1, inQ := ["a"] } "b" = none :=
  ⟨(C1_recvMessage_blocking_send _ _).1 (by decide),
   (C1_recvMessage_blocking_send _ _).2 (by decide)⟩

/-! ### C2: Stop is not idempotent -/

/-- C2 (counterexample): a first `Stop` succeeds, but a second `Stop` on
the resulting state panics (Go `close` of an already closed channel),
contradicting the claim that the second call is a harmless no-op. -/
theorem C2_counterexample :
    Stop { Servers := ["s"], Topics := ["t"], Username := "", Password := "",
           MetricBuffer := 5, clientSet := true, connectAttempted := true,
           connected := true, inCap := 5, doneAlloc := true,
           metricCap := 5, workerRunning := true } =
      .ok { Servers := ["s"], Topics := ["t"], Username := "", Password := "",
            MetricBuffer := 5, clientSet := true, connectAttempted := true,
            connected := false, inCap := 5, doneAlloc := true,
            doneClosed := true, metricCap := 5, workerRunning := false } ∧
    Stop { Servers := ["s"], Topics := ["t"], Username := "", Password := "",
           MetricBuffer := 5, clientSet := true, connectAttempted := true,
           connected := false, inCap := 5, doneAlloc := true,
           doneClosed := true, metricCap := 5, workerRunning := false } =
      .panicked "close of closed channel" :=
  ⟨rfl, rfl⟩

/-- C2 (amended): `Stop` on a state whose shutdown channel is not yet
closed raises the shutdown signal and disconnects; calling `Stop` again
on the result panics with "close of closed channel" — `Stop` is not
idempotent. -/
theorem C2_stop_twice_panics (m : MQTTConsumer) (h : m.doneClosed = false) :
    Stop m = .ok { m with doneClosed := true, workerRunning := false,
                          connected := false } ∧
    Stop { m with doneClosed := true, workerRunning := false,
                  connected := false } = .panicked "close of closed channel" := by
  unfold Stop
  simp [h]

/-- C2 witness. -/
theorem C2_witness :
    Stop { Servers := ["s"], Topics := ["t"], Username := "", Password := "",
           MetricBuffer := 5, workerRunning := true } =
      .ok { Servers := ["s"], Topics := ["t"], Username := "", Password := "",
            MetricBuffer := 5, doneClosed := true, workerRunning := false,
            connected := false } :=
  (C2_stop_twice_panics _ rfl).1

/-! ### C4: Gather drains a snapshot of the Egress Queue -/

/-- C4: a single `Gather` call snapshots the Egress Queue length `L` at
the start of the call, removes exactly the `L` records then at the head,
forwards them to the accumulator in arrival order, and forwards no more
than `L` records even if new records (`arrivals`) are appended by the
parser during the call; when the queue is empty at the start it forwards
zero records. -/
theorem C4_gather_drains_snapshot (m : MQTTConsumer) (arrivals : List Metric) :
    (Gather m arrivals).2 = m.metricQ ∧
    (Gather m arrivals).1.metricQ = arrivals ∧
    (Gather m arrivals).2.length = m.metricQ.length ∧
    (m.metricQ = [] → (Gather m arrivals).2 = []) := by
  unfold Gather
  simp [gatherLoop_append]

/-- C4 witness: a concrete call with two buffered metrics and one
arriving during the drain, discharging the empty-queue implication at an
empty queue. -/
theorem C4_witness :
    (Gather { Servers := ["s"], Topics := ["t"], Username := "", Password := "",
              MetricBuffer := 3, metricCap := 3, metricQ := [5, 7] } [9]).2 =
      [5, 7] ∧
    (Gather { Servers := ["s"], Topics := ["t"], Username := "", Password := "",
              MetricBuffer := 3, metricCap := 3, metricQ := [] } []).2 = [] :=
  ⟨(C4_gather_drains_snapshot _ [9]).1,
   (C4_gather_drains_snapshot _ []).2.2.2 rfl⟩

end MqttConsumer

namespace MqttConsumer

/-! ### C3: default capacity -/

/-- C3 (counterexample): `Start` with `metric_buffer = 0` allocates the
Ingress Queue (`m.in`) with capacity 0 — the channel is made before the
default is applied — while `metric_buffer = 100000` allocates it with
capacity 100000, so the two configurations are not observationally
identical. -/
theorem C3_counterexample :
    (Start { Servers := ["s"], Topics := ["t"], Username := "", Password := "",
             MetricBuffer := 0 } {}).1.inCap = 0 ∧
    (Start { Servers := ["s"], Topics := ["t"], Username := "", Password := "",
             MetricBuffer := 100000 } {}).1.inCap = 100000 ∧
    (0 : Nat) ≠ 100000 :=
  ⟨rfl, rfl, by decide⟩

/-- C3 (amended): with `metric_buffer` 0 the Egress Queue does get the
default capacity 100000, identical to `metric_buffer = 100000`; but the
Ingress Queue is allocated before the default is applied and gets
capacity 0 (an unbuffered channel), unlike the capacity-100000 ingress
of an explicit `metric_buffer = 100000`. -/
theorem C3_default_only_for_egress (m : MQTTConsumer) (brk : Broker)
    (hs : m.Servers ≠ []) (hc : brk.connectErr = none)
    (hb : m.MetricBuffer = 0) :
    (Start m brk).1.metricCap = 100000 ∧
    (Start { m with MetricBuffer := 100000 } brk).1.metricCap = 100000 ∧
    (Start m brk).1.inCap = 0 ∧
    (Start { m with MetricBuffer := 100000 } brk).1.inCap = 100000 := by
  have h0 : (createOpts m).2 = none := by
    rw [createOpts_snd]
    simp [List.length_eq_zero, hs]
  have h1 : (createOpts { m with MetricBuffer := 100000 }).2 = none := by
    rw [createOpts_snd]
    simp [List.length_eq_zero, hs]
  unfold Start
  rw [h0, h1, hc]
  cases hsub : brk.subscribeErr <;> simp [hb]

/-- C3 witness. -/
theorem C3_witness :
    (Start { Servers := ["s"], Topics := ["t"], Username := "", Password := "",
             MetricBuffer := 0 } {}).1.metricCap = 100000 ∧
    (Start { Servers := ["s"], Topics := ["t"], Username := "", Password := "",
             MetricBuffer := 0 } {}).1.inCap = 0 :=
  ⟨(C3_default_only_for_egress _ _ (by decide) rfl rfl).1,
   (C3_default_only_for_egress _ _ (by decide) rfl rfl).2.2.1⟩

/-! ### C5: Start-time errors -/

/-- C5: if the connection attempt fails, or the connection succeeds and
the subscription attempt fails, `Start` returns that first error and the
parser worker is not launched (a pipeline started from the Stopped state
remains Stopped). -/
theorem C5_start_error_no_worker (m : MQTTConsumer) (brk : Broker) (e : String)
    (hw : m.workerRunning = false) (hs : m.Servers ≠ [])
    (he : brk.connectErr = some e ∨
          (brk.connectErr = none ∧ brk.subscribeErr = some e)) :
    (Start m brk).2 = some e ∧ (Start m brk).1.workerRunning = false := by
  have h0 : (createOpts m).2 = none := by
    rw [createOpts_snd]
    simp [List.length_eq_zero, hs]
  unfold Start
  rw [h0]
  rcases he with hce | ⟨hcn, hse⟩
  · rw [hce]
    simp [hw]
  · rw [hcn, hse]
    by_cases hb : m.MetricBuffer = 0 <;> simp [hb, hw]

/-- C5 witness: a failing connection attempt. -/
theorem C5_witness :
    (Start { Servers := ["s"], Topics := ["t"], Username := "", Password := "",
             MetricBuffer := 10 } { connectErr := some "connection refused" }).2 =
      some "connection refused" ∧
    (Start { Servers := ["s"], Topics := ["t"], Username := "", Password := "",
             MetricBuffer := 10 }
           { connectErr := some "connection refused" }).1.workerRunning = false :=
  C5_start_error_no_worker _ _ "connection refused" rfl (by decide) (Or.inl rfl)

/-! ### C8: empty servers list -/

/-- C8: `Start` with an empty servers list fails synchronously with the
configuration error from `createOpts` ("could not get host infomations"),
returning the state unchanged: no connection is attempted and no worker
is launched. -/
theorem C8_start_empty_servers (m : MQTTConsumer) (brk : Broker)
    (hs : m.Servers = []) :
    Start m brk = (m, some "could not get host infomations") ∧
    (Start m brk).1.connectAttempted = m.connectAttempted ∧
    (Start m brk).1.workerRunning = m.workerRunning := by
  have h0 : (createOpts m).2 = some "could not get host infomations" := by
    rw [createOpts_snd]
    simp [hs]
  unfold Start
  rw [h0]
  exact ⟨rfl, rfl, rfl⟩

/-- C8 witness. -/
theorem C8_witness :
    Start { Servers := [], Topics := ["t"], Username := "", Password := "",
            MetricBuffer := 10 } {} =
      ({ Servers := [], Topics := ["t"], Username := "", Password := "",
         MetricBuffer := 10 }, some "could not get host infomations") :=
  (C8_start_empty_servers _ {} rfl).1

/-! ### C9: credential options -/

/-- C9 (counterexample): with the non-empty password "pw" the password
transport option *is* set (to `some "pw"`), contradicting the claim that
it is set only when the Password field is empty.  (The username half of
the claim does hold.) -/
theorem C9_counterexample :
    ({ Servers := ["s"], Topics := ["t"], Username := "u", Password := "pw",
       MetricBuffer := 0 } : MQTTConsumer).Password ≠ "" ∧
    (createOpts { Servers := ["s"], Topics := ["t"], Username := "u",
                  Password := "pw", MetricBuffer := 0 }).1.password =
      some "pw" := by
  exact ⟨by decide, rfl⟩

/-- C9 (amended): the username option is set exactly when the Username
field is empty (the inverted check of the source), while the password
option is set exactly when the Password field is non-empty. -/
theorem C9_createOpts_credentials (m : MQTTConsumer) :
    (createOpts m).1.username =
      (if m.Username = "" then some m.Username else none) ∧
    (createOpts m).1.password =
      (if m.Password = "" then none else some m.Password) := by
  unfold createOpts
  by_cases hu : m.Username = "" <;> by_cases hp : m.Password = "" <;>
    by_cases hsv : m.Servers.length = 0 <;> simp [hu, hp, hsv]

end MqttConsumer

namespace MqttConsumer

/-! ### C6: malformed payload isolation -/

/-- C6: for a pending ingress sequence [valid₁, malformed, valid₂] (the
valid payloads decoding to one metric each, the malformed one failing),
the parser logs the raw malformed payload with its decode error, drops
it, and continues: both valid metrics reach the Egress Queue in order
and are forwarded by the next Gather; the parser itself is a total
function, so no crash occurs. -/
theorem C6_malformed_payload_isolated (parse : ParseFn) (v1 bad v2 : Payload)
    (a b : Metric) (e : String) (m : MQTTConsumer)
    (h1 : parse v1 = .ok [a]) (hbad : parse bad = .error e)
    (h2 : parse v2 = .ok [b]) (hq : m.inQ = [v1, bad, v2])
    (hm : m.metricQ = []) (hcap : 2 ≤ m.metricCap) :
    (parserRun parse m).1.metricQ = [a, b] ∧
    LogEntry.parseError bad e ∈ (parserRun parse m).2 ∧
    (Gather (parserRun parse m).1 []).2 = [a, b] := by
  have c0 : 0 < m.metricCap := lt_of_lt_of_le (by norm_num) hcap
  have c1 : 1 < m.metricCap := lt_of_lt_of_le (by norm_num) hcap
  unfold parserRun
  rw [hq]
  simp [parserDrain, parseMsg, h1, hbad, h2, enqueueMetric, hm, c0, c1,
        Gather, gatherLoop]

/-- C6 witness. -/
theorem C6_witness :
    (parserRun
        (fun s => if s = "v1" then Except.ok [1]
                  else if s = "v2" then Except.ok [2]
                  else Except.error "boom")
        { Servers := ["s"], Topics := ["t"], Username := "", Password := "",
          MetricBuffer := 2, metricCap := 2,
          inQ := ["v1", "x", "v2"] }).1.metricQ = [1, 2] :=
  (C6_malformed_payload_isolated
    (fun s => if s = "v1" then Except.ok [1]
              else if s = "v2" then Except.ok [2]
              else Except.error "boom")
    "v1" "x" "v2" 1 2 "boom"
    { Servers := ["s"], Topics := ["t"], Username := "", Password := "",
      MetricBuffer := 2, metricCap := 2, inQ := ["v1", "x", "v2"] }
    rfl rfl rfl rfl rfl (by decide)).1

/-! ### C7: egress overflow drops the new metric -/

/-- C7: a non-blocking egress enqueue into a full Egress Queue drops the
new metric, keeps the buffered records unchanged and logs a warning
(final conjunct, for every full queue); in particular with capacity 1
and two payloads each decoding to one metric, exactly the first metric
is retained, one buffer-full warning is logged, and the next Gather
returns exactly that first metric. -/
theorem C7_egress_overflow_drops_new (parse : ParseFn) (p1 p2 : Payload)
    (a b : Metric) (m : MQTTConsumer)
    (h1 : parse p1 = .ok [a]) (h2 : parse p2 = .ok [b])
    (hcap : m.metricCap = 1) (hq : m.metricQ = []) (hin : m.inQ = [p1, p2]) :
    (parserRun parse m).1.metricQ = [a] ∧
    (parserRun parse m).2 = [LogEntry.bufferFull] ∧
    (Gather (parserRun parse m).1 []).2 = [a] ∧
    (∀ (s : MQTTConsumer × List LogEntry) (met : Metric),
        s.1.metricCap ≤ s.1.metricQ.length →
        enqueueMetric s met = (s.1, s.2 ++ [LogEntry.bufferFull])) := by
  have hgen : ∀ (s : MQTTConsumer × List LogEntry) (met : Metric),
      s.1.metricCap ≤ s.1.metricQ.length →
      enqueueMetric s met = (s.1, s.2 ++ [LogEntry.bufferFull]) := by
    intro s met h
    simp [enqueueMetric, Nat.not_lt.mpr h]
  refine ⟨?_, ?_, ?_, hgen⟩ <;>
  · unfold parserRun
    rw [hin]
    simp [parserDrain, parseMsg, h1, h2, enqueueMetric, hq, hcap,
          Gather, gatherLoop]

/-- C7 witness. -/
theorem C7_witness :
    (parserRun
        (fun s => if s = "p1" then Except.ok [4]
                  else if s = "p2" then Except.ok [6]
                  else Except.error "boom")
        { Servers := ["s"], Topics := ["t"], Username := "", Password := "",
          MetricBuffer := 1, metricCap := 1,
          inQ := ["p1", "p2"] }).1.metricQ = [4] :=
  (C7_egress_overflow_drops_new
    (fun s => if s = "p1" then Except.ok [4]
              else if s = "p2" then Except.ok [6]
              else Except.error "boom")
    "p1" "p2" 4 6
    { Servers := ["s"], Topics := ["t"], Username := "", Password := "",
      MetricBuffer := 1, metricCap := 1, inQ := ["p1", "p2"] }
    rfl rfl rfl rfl rfl).1

end MqttConsumer

namespace Cmp

/-! ### C10: findVersion memoization -/

/-- Helper: a call with a non-empty memoized `version` returns it
unchanged without opening the file. -/
theorem findVersion_memo_hit (v : Str) (fs : VersionFile) (h : v ≠ []) :
    findVersion v fs = (v, v, false) := by
  unfold findVersion
  simp [h]

/-- C10 (counterexample): with file content consisting of the single
line `"version: "` (the marker with an empty remainder), the first call
returns the empty string — not a non-empty one — and, since the
memoized `version` stays empty, the very next call opens and reads the
file again instead of reusing the first result. -/
theorem C10_counterexample :
    findVersion [] (VersionFile.content "version: ".toList) = ([], [], true) ∧
    (findVersion (findVersion [] (VersionFile.content "version: ".toList)).2.1
        (VersionFile.content "version: ".toList)).2.2 = true := by
  exact ⟨by decide, by decide⟩

/-- C10 (amended): the first call reads the file and stores its result
in the package variable; whenever that first result is non-empty —
which holds when the file cannot be opened or read (result "unknown"),
and for content whose scan yields a non-empty string — every later call
returns the same string without re-reading the file.  Only a first
`"version: "` line with empty remainder produces the empty, unmemoized
result. -/
theorem C10_findVersion_memoized (fs fs' : VersionFile)
    (hr : (findVersion [] fs).1 ≠ []) :
    (findVersion [] fs).2.1 = (findVersion [] fs).1 ∧
    (findVersion [] fs).2.2 = true ∧
    findVersion (findVersion [] fs).2.1 fs' =
      ((findVersion [] fs).1, (findVersion [] fs).1, false) ∧
    ((fs = VersionFile.openError ∨ fs = VersionFile.readError) →
      (findVersion [] fs).1 = versionUnknown) ∧
    (∀ s, fs = VersionFile.content s →
      (findVersion [] fs).1 = scanLines (splitLines s) versionUnknown) := by
  have h21 : (findVersion [] fs).2.1 = (findVersion [] fs).1 := by
    cases fs <;> rfl
  refine ⟨h21, ?_, ?_, ?_, ?_⟩
  · cases fs <;> rfl
  · rw [h21, findVersion_memo_hit _ _ hr]
  · rintro (rfl | rfl) <;> rfl
  · rintro s rfl
    rfl

/-- C10 witness: a well-formed version file is read once and the result
is served from the memo afterwards. -/
theorem C10_witness :
    findVersion (findVersion [] (VersionFile.content "version: 1.2".toList)).2.1
        (VersionFile.content "version: 1.2".toList) =
      ((findVersion [] (VersionFile.content "version: 1.2".toList)).1,
       (findVersion [] (VersionFile.content "version: 1.2".toList)).1, false) :=
  (C10_findVersion_memoized (VersionFile.content "version: 1.2".toList)
    (VersionFile.content "version: 1.2".toList) (by decide)).2.2.1

end Cmp
